import Mathlib

/-!
Shallow embedding of the FF-A client library (ArmFfaLibEx.c, Tpm2DeviceLibFfa)
and proofs about its message codec, identifier canonicalizer, call engine,
memory-transaction operations, discovery service and status translators.

Machine integers are modelled as `Nat` with explicit reductions modulo
`2 ^ w` exactly where the C code truncates.  The one external primitive,
the register-vector exchange (SMC/SVC trap), is modelled as an oracle:
each operation takes the response register vector (or the list of
successive responses, for the interrupt-reentry loop) as an explicit
argument.
-/

/-! FF-A function identifiers (wire constants from ArmFfaSvc.h, fixed by the
FF-A protocol specification). -/

def ARM_FID_FFA_ERROR : Nat := 0x84000060

def ARM_FID_FFA_SUCCESS_AARCH32 : Nat := 0x84000061

def ARM_FID_FFA_INTERRUPT : Nat := 0x84000062

def ARM_FID_FFA_VERSION : Nat := 0x84000063

def ARM_FID_FFA_ID_GET : Nat := 0x84000069

def ARM_FID_FFA_WAIT : Nat := 0x8400006B

def ARM_FID_FFA_MSG_SEND_DIRECT_REQ_AARCH32 : Nat := 0x8400006F

def ARM_FID_FFA_MSG_SEND_DIRECT_REQ_AARCH64 : Nat := 0xC400006F

def ARM_FID_FFA_MSG_SEND_DIRECT_RESP_AARCH32 : Nat := 0x84000070

def ARM_FID_FFA_MSG_SEND_DIRECT_RESP_AARCH64 : Nat := 0xC4000070

def ARM_FID_FFA_MSG_SEND_DIRECT_REQ2 : Nat := 0xC400008D

def ARM_FID_FFA_MSG_SEND_DIRECT_RESP2 : Nat := 0xC400008E

def ARM_FID_FFA_PARTITION_INFO_GET_REGS : Nat := 0xC400008B

def ARM_FID_FFA_MEM_DONATE_AARCH32 : Nat := 0x84000071

def ARM_FID_FFA_MEM_DONATE_AARCH64 : Nat := 0xC4000071

def ARM_FID_FFA_MEM_LEND_AARCH32 : Nat := 0x84000072

def ARM_FID_FFA_MEM_LEND_AARCH64 : Nat := 0xC4000072

def ARM_FID_FFA_MEM_SHARE_AARCH32 : Nat := 0x84000073

def ARM_FID_FFA_MEM_SHARE_AARCH64 : Nat := 0xC4000073

/-! FF-A result codes.  In the C headers these are the negative values
0, -1, ..., -10; the translators switch on them as `UINTN`, so they are
modelled as their 64-bit two's-complement images. -/

def ARM_FFA_RET_SUCCESS : Nat := 0

def ARM_FFA_RET_NOT_SUPPORTED : Nat := 2 ^ 64 - 1

def ARM_FFA_RET_INVALID_PARAMETERS : Nat := 2 ^ 64 - 2

def ARM_FFA_RET_NO_MEMORY : Nat := 2 ^ 64 - 3

def ARM_FFA_RET_BUSY : Nat := 2 ^ 64 - 4

def ARM_FFA_RET_INTERRUPTED : Nat := 2 ^ 64 - 5

def ARM_FFA_RET_DENIED : Nat := 2 ^ 64 - 6

def ARM_FFA_RET_RETRY : Nat := 2 ^ 64 - 7

def ARM_FFA_RET_ABORTED : Nat := 2 ^ 64 - 8

def ARM_FFA_RET_NODATA : Nat := 2 ^ 64 - 9

def ARM_FFA_RET_NOT_READY : Nat := 2 ^ 64 - 10

/-! TPM-over-FF-A service status codes (wire constants from
Tpm2ServiceFfa.h, fixed by the TCG TPM service ABI). -/

def TPM2_FFA_SUCCESS_OK : Nat := 0x05000001

def TPM2_FFA_SUCCESS_OK_RESULTS_RETURNED : Nat := 0x05000002

def TPM2_FFA_ERROR_NOFUNC : Nat := 0x8E000001

def TPM2_FFA_ERROR_NOTSUP : Nat := 0x8E000002

def TPM2_FFA_ERROR_INVARG : Nat := 0x8E000005

def TPM2_FFA_ERROR_INV_CRB_CTRL_DATA : Nat := 0x8E000006

def TPM2_FFA_ERROR_ALREADY : Nat := 0x8E000009

def TPM2_FFA_ERROR_DENIED : Nat := 0x8E00000A

def TPM2_FFA_ERROR_NOMEM : Nat := 0x8E00000B

/-! EFI status codes (UefiBaseType.h): an error status has the top bit of
the 64-bit word set. -/

def EFI_SUCCESS : Nat := 0

def EFI_ERROR_BIT : Nat := 2 ^ 63

def EFI_LOAD_ERROR : Nat := EFI_ERROR_BIT + 1

def EFI_INVALID_PARAMETER : Nat := EFI_ERROR_BIT + 2

def EFI_UNSUPPORTED : Nat := EFI_ERROR_BIT + 3

def EFI_BUFFER_TOO_SMALL : Nat := EFI_ERROR_BIT + 5

def EFI_NOT_READY : Nat := EFI_ERROR_BIT + 6

def EFI_DEVICE_ERROR : Nat := EFI_ERROR_BIT + 7

def EFI_WRITE_PROTECTED : Nat := EFI_ERROR_BIT + 8

def EFI_OUT_OF_RESOURCES : Nat := EFI_ERROR_BIT + 9

def EFI_MEDIA_CHANGED : Nat := EFI_ERROR_BIT + 13

def EFI_NOT_FOUND : Nat := EFI_ERROR_BIT + 14

def EFI_ACCESS_DENIED : Nat := EFI_ERROR_BIT + 15

def EFI_ALREADY_STARTED : Nat := EFI_ERROR_BIT + 20

def EFI_ABORTED : Nat := EFI_ERROR_BIT + 21

def EFI_COMPROMISED_DATA : Nat := EFI_ERROR_BIT + 33

def MAX_UINT32 : Nat := 0xFFFFFFFF

/-- The EFI_ERROR macro: a status is an error when its top bit is set. -/
def efiIsError (s : Nat) : Bool := decide (EFI_ERROR_BIT ≤ s)

/-! The EFI_GUID structure: a UINT32, two UINT16s and eight UINT8s, laid
out little-endian in 16 bytes (Data1 in bytes 0-3, Data2 in 4-5, Data3 in
6-7, Data4 in 8-15). -/

structure EFI_GUID where
  data1 : Nat
  data2 : Nat
  data3 : Nat
  data40 : Nat
  data41 : Nat
  data42 : Nat
  data43 : Nat
  data44 : Nat
  data45 : Nat
  data46 : Nat
  data47 : Nat
deriving DecidableEq

/-- Field ranges imposed by the C types UINT32, UINT16, UINT8. -/
def EFI_GUID.Wf (g : EFI_GUID) : Prop :=
  g.data1 < 4294967296 ∧ g.data2 < 65536 ∧ g.data3 < 65536 ∧
  g.data40 < 256 ∧ g.data41 < 256 ∧ g.data42 < 256 ∧ g.data43 < 256 ∧
  g.data44 < 256 ∧ g.data45 < 256 ∧ g.data46 < 256 ∧ g.data47 < 256

instance (g : EFI_GUID) : Decidable g.Wf := by
  unfold EFI_GUID.Wf; infer_instance

def guidZero : EFI_GUID := ⟨0, 0, 0, 0, 0, 0, 0, 0, 0, 0, 0⟩

/-- BaseLib SwapBytes32: reverse the byte order of a 32-bit value. -/
def SwapBytes32 (w : Nat) : Nat :=
  w / 16777216 % 256 + w / 65536 % 256 * 256 + w / 256 % 256 * 65536 + w % 256 * 16777216

/-- Little-endian reading of four bytes as a 32-bit word (the view CopyMem
gives of four consecutive UINT8s through a UINT32). -/
def bytesToWord32 (b0 b1 b2 b3 : Nat) : Nat :=
  b0 + b1 * 256 + b2 * 65536 + b3 * 16777216

/-- C UINT16 subtraction (wraps modulo 2^16). -/
def sub16 (a b : Nat) : Nat := (a + 65536 - b % 65536) % 65536

/-- FfaPrepareGuid from ArmFfaLibEx.c (an identical static copy exists in
Tpm2ServiceFfaRaw.c): swap Data2 and Data3 by the arithmetic-exchange
trick in UINT16 arithmetic, then view the GUID as four 32-bit words and
byte-swap words 2 and 3 (the Data4 region). -/
def FfaPrepareGuid (g : EFI_GUID) : EFI_GUID where
  data1 := g.data1
  data2 := sub16 ((g.data2 + g.data3) % 65536) (sub16 ((g.data2 + g.data3) % 65536) g.data3)
  data3 := sub16 ((g.data2 + g.data3) % 65536) g.data3
  data40 := SwapBytes32 (bytesToWord32 g.data40 g.data41 g.data42 g.data43) % 256
  data41 := SwapBytes32 (bytesToWord32 g.data40 g.data41 g.data42 g.data43) / 256 % 256
  data42 := SwapBytes32 (bytesToWord32 g.data40 g.data41 g.data42 g.data43) / 65536 % 256
  data43 := SwapBytes32 (bytesToWord32 g.data40 g.data41 g.data42 g.data43) / 16777216 % 256
  data44 := SwapBytes32 (bytesToWord32 g.data44 g.data45 g.data46 g.data47) % 256
  data45 := SwapBytes32 (bytesToWord32 g.data44 g.data45 g.data46 g.data47) / 256 % 256
  data46 := SwapBytes32 (bytesToWord32 g.data44 g.data45 g.data46 g.data47) / 65536 % 256
  data47 := SwapBytes32 (bytesToWord32 g.data44 g.data45 g.data46 g.data47) / 16777216 % 256

/-- The 16-byte little-endian serialization of an EFI_GUID. -/
def guidBytes (g : EFI_GUID) : List Nat :=
  [g.data1 % 256, g.data1 / 256 % 256, g.data1 / 65536 % 256, g.data1 / 16777216 % 256,
   g.data2 % 256, g.data2 / 256 % 256, g.data3 % 256, g.data3 / 256 % 256,
   g.data40, g.data41, g.data42, g.data43, g.data44, g.data45, g.data46, g.data47]

/-- Reading an EFI_GUID out of 16 raw bytes (CopyMem from a byte buffer). -/
def guidOfBytes (b : List Nat) : EFI_GUID where
  data1 := bytesToWord32 (b.getD 0 0) (b.getD 1 0) (b.getD 2 0) (b.getD 3 0)
  data2 := b.getD 4 0 + b.getD 5 0 * 256
  data3 := b.getD 6 0 + b.getD 7 0 * 256
  data40 := b.getD 8 0
  data41 := b.getD 9 0
  data42 := b.getD 10 0
  data43 := b.getD 11 0
  data44 := b.getD 12 0
  data45 := b.getD 13 0
  data46 := b.getD 14 0
  data47 := b.getD 15 0

/-- The low 64-bit word a CopyMem of an EFI_GUID produces (bytes 0-7). -/
def guidWordLo (g : EFI_GUID) : Nat :=
  g.data1 + g.data2 * 4294967296 + g.data3 * 281474976710656

/-- The high 64-bit word a CopyMem of an EFI_GUID produces (bytes 8-15). -/
def guidWordHi (g : EFI_GUID) : Nat :=
  g.data40 + g.data41 * 256 + g.data42 * 65536 + g.data43 * 16777216 +
  g.data44 * 4294967296 + g.data45 * 1099511627776 +
  g.data46 * 281474976710656 + g.data47 * 72057594037927936

/-- Reading an EFI_GUID back out of two little-endian 64-bit words. -/
def guidOfWords (lo hi : Nat) : EFI_GUID where
  data1 := lo % 4294967296
  data2 := lo / 4294967296 % 65536
  data3 := lo / 281474976710656 % 65536
  data40 := hi % 256
  data41 := hi / 256 % 256
  data42 := hi / 65536 % 256
  data43 := hi / 16777216 % 256
  data44 := hi / 4294967296 % 256
  data45 := hi / 1099511627776 % 256
  data46 := hi / 281474976710656 % 256
  data47 := hi / 72057594037927936 % 256

/-- SwapBytes32 on a little-endian composition of four bytes reverses the
byte order. -/
theorem swapBytes32_bytes (b0 b1 b2 b3 : Nat) (h0 : b0 < 256) (h1 : b1 < 256)
    (h2 : b2 < 256) (h3 : b3 < 256) :
    SwapBytes32 (bytesToWord32 b0 b1 b2 b3) = bytesToWord32 b3 b2 b1 b0 := by
  simp only [SwapBytes32, bytesToWord32]
  omega

/-- Byte extraction inverts the little-endian composition of four bytes. -/
theorem bytesToWord32_bytes (b0 b1 b2 b3 : Nat) (h0 : b0 < 256) (h1 : b1 < 256)
    (h2 : b2 < 256) (h3 : b3 < 256) :
    bytesToWord32 b0 b1 b2 b3 % 256 = b0 ∧
    bytesToWord32 b0 b1 b2 b3 / 256 % 256 = b1 ∧
    bytesToWord32 b0 b1 b2 b3 / 65536 % 256 = b2 ∧
    bytesToWord32 b0 b1 b2 b3 / 16777216 % 256 = b3 := by
  simp only [bytesToWord32]
  omega

/-- On well-formed input the canonicalizer acts as a pure byte permutation:
Data2 and Data3 trade places and each four-byte half of Data4 is reversed. -/
theorem FfaPrepareGuid_eq_swap (g : EFI_GUID) (h : g.Wf) :
    FfaPrepareGuid g =
      ⟨g.data1, g.data3, g.data2, g.data43, g.data42, g.data41, g.data40,
       g.data47, g.data46, g.data45, g.data44⟩ := by
  obtain ⟨h1, h2, h3, h4, h5, h6, h7, h8, h9, h10, h11⟩ := h
  simp only [FfaPrepareGuid,
    swapBytes32_bytes g.data40 g.data41 g.data42 g.data43 h4 h5 h6 h7,
    swapBytes32_bytes g.data44 g.data45 g.data46 g.data47 h8 h9 h10 h11,
    (bytesToWord32_bytes g.data43 g.data42 g.data41 g.data40 h7 h6 h5 h4).1,
    (bytesToWord32_bytes g.data43 g.data42 g.data41 g.data40 h7 h6 h5 h4).2.1,
    (bytesToWord32_bytes g.data43 g.data42 g.data41 g.data40 h7 h6 h5 h4).2.2.1,
    (bytesToWord32_bytes g.data43 g.data42 g.data41 g.data40 h7 h6 h5 h4).2.2.2,
    (bytesToWord32_bytes g.data47 g.data46 g.data45 g.data44 h11 h10 h9 h8).1,
    (bytesToWord32_bytes g.data47 g.data46 g.data45 g.data44 h11 h10 h9 h8).2.1,
    (bytesToWord32_bytes g.data47 g.data46 g.data45 g.data44 h11 h10 h9 h8).2.2.1,
    (bytesToWord32_bytes g.data47 g.data46 g.data45 g.data44 h11 h10 h9 h8).2.2.2,
    sub16, EFI_GUID.mk.injEq, true_and, and_true]
  omega

/-- Well-formedness is preserved by the canonicalizer. -/
theorem FfaPrepareGuid_wf (g : EFI_GUID) (h : g.Wf) : (FfaPrepareGuid g).Wf := by
  rw [FfaPrepareGuid_eq_swap g h]
  obtain ⟨h1, h2, h3, h4, h5, h6, h7, h8, h9, h10, h11⟩ := h
  exact ⟨h1, h3, h2, h7, h6, h5, h4, h11, h10, h9, h8⟩

/-- C2: the identifier canonicalizer is an involution on every well-formed
128-bit identifier, and the all-zero identifier maps to itself. -/
theorem FfaPrepareGuid_involution (g : EFI_GUID) (h : g.Wf) :
    FfaPrepareGuid (FfaPrepareGuid g) = g ∧ FfaPrepareGuid guidZero = guidZero := by
  constructor
  · have hswap : (⟨g.data1, g.data3, g.data2, g.data43, g.data42, g.data41, g.data40,
        g.data47, g.data46, g.data45, g.data44⟩ : EFI_GUID).Wf := by
      obtain ⟨h1, h2, h3, h4, h5, h6, h7, h8, h9, h10, h11⟩ := h
      exact ⟨h1, h3, h2, h7, h6, h5, h4, h11, h10, h9, h8⟩
    rw [FfaPrepareGuid_eq_swap g h, FfaPrepareGuid_eq_swap _ hswap]
  · decide

/-- Witness for C2 at a concrete identifier. -/
theorem FfaPrepareGuid_involution_witness :
    (EFI_GUID.Wf ⟨1, 2, 3, 4, 5, 6, 7, 8, 9, 10, 11⟩) ∧
    FfaPrepareGuid (FfaPrepareGuid ⟨1, 2, 3, 4, 5, 6, 7, 8, 9, 10, 11⟩) =
      ⟨1, 2, 3, 4, 5, 6, 7, 8, 9, 10, 11⟩ := by
  refine ⟨by decide, (FfaPrepareGuid_involution ⟨1, 2, 3, 4, 5, 6, 7, 8, 9, 10, 11⟩ (by decide)).1⟩

/-- Transform as worded by the spec for the canonicalizer: view the 16-byte
identifier as four 32-bit fields F0..F3, swap the 32-bit fields F1 and F2,
then byte-swap the (new) F2 and F3 individually.  Written from the spec's
words only, to compare against FfaPrepareGuid. -/
def specClaimGuidTransform (b : List Nat) : List Nat :=
  [b.getD 0 0, b.getD 1 0, b.getD 2 0, b.getD 3 0,
   b.getD 8 0, b.getD 9 0, b.getD 10 0, b.getD 11 0,
   b.getD 7 0, b.getD 6 0, b.getD 5 0, b.getD 4 0,
   b.getD 15 0, b.getD 14 0, b.getD 13 0, b.getD 12 0]

/-- C5 counterexample: on the identifier with Data2 = 1, Data3 = 2 the code's
canonicalizer does not realize the claimed 32-bit F1/F2 field swap; the code
swaps the two 16-bit halves of F1 instead. -/
theorem specClaimGuidTransform_ne_FfaPrepareGuid :
    guidBytes (FfaPrepareGuid ⟨0, 1, 2, 0, 0, 0, 0, 0, 0, 0, 0⟩) ≠
      specClaimGuidTransform (guidBytes ⟨0, 1, 2, 0, 0, 0, 0, 0, 0, 0, 0⟩) := by
  decide

/-- C5 (amended): on every well-formed identifier the canonicalizer's output
bytes are the rearrangement that swaps the two 16-bit fields at bytes 4-5 and
6-7 (Data2 and Data3, the halves of the 32-bit field F1) and reverses each of
the two four-byte groups at bytes 8-11 and 12-15 (fields F2 and F3), leaving
bytes 0-3 (field F0) unchanged. -/
theorem FfaPrepareGuid_byte_rearrangement (g : EFI_GUID) (h : g.Wf) :
    guidBytes (FfaPrepareGuid g) =
      [g.data1 % 256, g.data1 / 256 % 256, g.data1 / 65536 % 256, g.data1 / 16777216 % 256,
       g.data3 % 256, g.data3 / 256 % 256, g.data2 % 256, g.data2 / 256 % 256,
       g.data43, g.data42, g.data41, g.data40, g.data47, g.data46, g.data45, g.data44] := by
  rw [FfaPrepareGuid_eq_swap g h]
  rfl

/-- Witness for C5's amended theorem at a concrete identifier. -/
theorem FfaPrepareGuid_byte_rearrangement_witness :
    (EFI_GUID.Wf ⟨0, 1, 2, 3, 4, 5, 6, 7, 8, 9, 10⟩) ∧
    guidBytes (FfaPrepareGuid ⟨0, 1, 2, 3, 4, 5, 6, 7, 8, 9, 10⟩) =
      [0, 0, 0, 0, 2, 0, 1, 0, 6, 5, 4, 3, 10, 9, 8, 7] := by
  refine ⟨by decide, ?_⟩
  rw [FfaPrepareGuid_byte_rearrangement ⟨0, 1, 2, 3, 4, 5, 6, 7, 8, 9, 10⟩ (by decide)]
  rfl

/-! The register vector: the 18 argument words of ARM_SXC_ARGS exchanged
with the other side by the SMC/SVC conduit. -/

structure ARM_SXC_ARGS where
  arg0 : Nat
  arg1 : Nat
  arg2 : Nat
  arg3 : Nat
  arg4 : Nat
  arg5 : Nat
  arg6 : Nat
  arg7 : Nat
  arg8 : Nat
  arg9 : Nat
  arg10 : Nat
  arg11 : Nat
  arg12 : Nat
  arg13 : Nat
  arg14 : Nat
  arg15 : Nat
  arg16 : Nat
  arg17 : Nat
deriving DecidableEq

/-- A zero-initialized register vector, as produced by `= { 0 }`. -/
def sxcZero : ARM_SXC_ARGS := ⟨0, 0, 0, 0, 0, 0, 0, 0, 0, 0, 0, 0, 0, 0, 0, 0, 0, 0⟩

/-! The logical Direct Message DIRECT_MSG_ARGS_EX: function id (UINT32),
source and destination endpoint ids (UINT16), service GUID and the fourteen
implementation-defined payload words. -/

structure DIRECT_MSG_ARGS_EX where
  functionId : Nat
  sourceId : Nat
  destinationId : Nat
  serviceGuid : EFI_GUID
  arg0 : Nat
  arg1 : Nat
  arg2 : Nat
  arg3 : Nat
  arg4 : Nat
  arg5 : Nat
  arg6 : Nat
  arg7 : Nat
  arg8 : Nat
  arg9 : Nat
  arg10 : Nat
  arg11 : Nat
  arg12 : Nat
  arg13 : Nat
deriving DecidableEq

/-- All-zero direct message (compound literal with only FunctionId named). -/
def dmZero : DIRECT_MSG_ARGS_EX :=
  ⟨0, 0, 0, guidZero, 0, 0, 0, 0, 0, 0, 0, 0, 0, 0, 0, 0, 0, 0⟩

/-- Field ranges imposed by the C types of DIRECT_MSG_ARGS_EX. -/
def DIRECT_MSG_ARGS_EX.Wf (m : DIRECT_MSG_ARGS_EX) : Prop :=
  m.functionId < 4294967296 ∧ m.sourceId < 65536 ∧ m.destinationId < 65536 ∧
  m.serviceGuid.Wf

instance (m : DIRECT_MSG_ARGS_EX) : Decidable m.Wf := by
  unfold DIRECT_MSG_ARGS_EX.Wf; infer_instance

/-- FfaPackDirectMessage from ArmFfaLibEx.c.  `req` is the caller's request
vector (always zero-initialized at the call sites); only the slots the C
function assigns are replaced. -/
def FfaPackDirectMessage (req : ARM_SXC_ARGS) (m : DIRECT_MSG_ARGS_EX) : ARM_SXC_ARGS :=
  let base := { req with arg0 := m.functionId,
                         arg1 := (m.sourceId <<< 16) ||| m.destinationId }
  if m.functionId = ARM_FID_FFA_MSG_SEND_DIRECT_REQ_AARCH32 ∨
     m.functionId = ARM_FID_FFA_MSG_SEND_DIRECT_REQ_AARCH64 ∨
     m.functionId = ARM_FID_FFA_MSG_SEND_DIRECT_RESP_AARCH32 ∨
     m.functionId = ARM_FID_FFA_MSG_SEND_DIRECT_RESP_AARCH64 then
    { base with arg2 := m.arg0, arg3 := m.arg1, arg4 := m.arg2, arg5 := m.arg3,
                arg6 := m.arg4, arg7 := m.arg5 }
  else
    { base with
      arg2 := guidWordLo (FfaPrepareGuid m.serviceGuid),
      arg3 := guidWordHi (FfaPrepareGuid m.serviceGuid),
      arg4 := m.arg0, arg5 := m.arg1, arg6 := m.arg2, arg7 := m.arg3,
      arg8 := m.arg4, arg9 := m.arg5, arg10 := m.arg6, arg11 := m.arg7,
      arg12 := m.arg8, arg13 := m.arg9, arg14 := m.arg10, arg15 := m.arg11,
      arg16 := m.arg12, arg17 := m.arg13 }

/-- FfaUnpackDirectMessage from ArmFfaLibEx.c.  `msg` is the prior content of
the caller's output structure; slots the C function does not assign keep it. -/
def FfaUnpackDirectMessage (resp : ARM_SXC_ARGS) (msg : DIRECT_MSG_ARGS_EX) :
    DIRECT_MSG_ARGS_EX :=
  let base := { msg with functionId := resp.arg0 % 4294967296,
                         sourceId := (resp.arg1 >>> 16) % 65536,
                         destinationId := resp.arg1 % 65536 }
  if resp.arg0 % 4294967296 = ARM_FID_FFA_MSG_SEND_DIRECT_REQ_AARCH32 ∨
     resp.arg0 % 4294967296 = ARM_FID_FFA_MSG_SEND_DIRECT_REQ_AARCH64 then
    { base with arg0 := resp.arg2, arg1 := resp.arg3, arg2 := resp.arg4,
                arg3 := resp.arg5, arg4 := resp.arg6, arg5 := resp.arg7 }
  else
    { base with
      serviceGuid := FfaPrepareGuid (guidOfWords resp.arg2 resp.arg3),
      arg0 := resp.arg4, arg1 := resp.arg5, arg2 := resp.arg6, arg3 := resp.arg7,
      arg4 := resp.arg8, arg5 := resp.arg9, arg6 := resp.arg10, arg7 := resp.arg11,
      arg8 := resp.arg12, arg9 := resp.arg13, arg10 := resp.arg14, arg11 := resp.arg15,
      arg12 := resp.arg16, arg13 := resp.arg17 }

/-- Splitting the packed source/destination word. -/
theorem shiftLeft16_lor (s d : Nat) (hd : d < 65536) :
    (s <<< 16) ||| d = s * 65536 + d := by
  have h : d < 2 ^ 16 := by omega
  calc (s <<< 16) ||| d = (2 ^ 16 * s) ||| d := by
        rw [Nat.shiftLeft_eq, Nat.mul_comm]
    _ = 2 ^ 16 * s + d := (Nat.mul_add_lt_is_or h s).symm
    _ = s * 65536 + d := by omega

/-- Unpacking recovers the source and destination endpoint ids. -/
theorem headerRoundTrip (s d : Nat) (hs : s < 65536) (hd : d < 65536) :
    (((s <<< 16) ||| d) >>> 16) % 65536 = s ∧ ((s <<< 16) ||| d) % 65536 = d := by
  rw [shiftLeft16_lor s d hd, Nat.shiftRight_eq_div_pow]
  constructor <;> omega

/-- Reading two copied little-endian words back yields the original GUID. -/
theorem guidOfWords_guidWords (g : EFI_GUID) (h : g.Wf) :
    guidOfWords (guidWordLo g) (guidWordHi g) = g := by
  obtain ⟨d1, d2, d3, e0, e1, e2, e3, e4, e5, e6, e7⟩ := g
  simp only [EFI_GUID.Wf] at h
  obtain ⟨h1, h2, h3, h4, h5, h6, h7, h8, h9, h10, h11⟩ := h
  simp only [guidOfWords, guidWordLo, guidWordHi, EFI_GUID.mk.injEq]
  omega

/-- C1 (amended): packing followed by unpacking is the identity for the basic
direct-request variants (on the fields the basic variant carries) and for
every extended-variant function id, i.e. every id the codec does not treat as
basic.  The two basic direct-response ids are excluded: FfaPackDirectMessage
lays them out as basic messages but FfaUnpackDirectMessage decodes them as
extended ones. -/
theorem FfaDirectMessage_roundTrip (m m0 : DIRECT_MSG_ARGS_EX) (h : m.Wf) :
    ((m.functionId = ARM_FID_FFA_MSG_SEND_DIRECT_REQ_AARCH32 ∨
      m.functionId = ARM_FID_FFA_MSG_SEND_DIRECT_REQ_AARCH64) →
      ((FfaUnpackDirectMessage (FfaPackDirectMessage sxcZero m) m0).functionId = m.functionId ∧
       (FfaUnpackDirectMessage (FfaPackDirectMessage sxcZero m) m0).sourceId = m.sourceId ∧
       (FfaUnpackDirectMessage (FfaPackDirectMessage sxcZero m) m0).destinationId = m.destinationId ∧
       (FfaUnpackDirectMessage (FfaPackDirectMessage sxcZero m) m0).arg0 = m.arg0 ∧
       (FfaUnpackDirectMessage (FfaPackDirectMessage sxcZero m) m0).arg1 = m.arg1 ∧
       (FfaUnpackDirectMessage (FfaPackDirectMessage sxcZero m) m0).arg2 = m.arg2 ∧
       (FfaUnpackDirectMessage (FfaPackDirectMessage sxcZero m) m0).arg3 = m.arg3 ∧
       (FfaUnpackDirectMessage (FfaPackDirectMessage sxcZero m) m0).arg4 = m.arg4 ∧
       (FfaUnpackDirectMessage (FfaPackDirectMessage sxcZero m) m0).arg5 = m.arg5)) ∧
    ((m.functionId ≠ ARM_FID_FFA_MSG_SEND_DIRECT_REQ_AARCH32 ∧
      m.functionId ≠ ARM_FID_FFA_MSG_SEND_DIRECT_REQ_AARCH64 ∧
      m.functionId ≠ ARM_FID_FFA_MSG_SEND_DIRECT_RESP_AARCH32 ∧
      m.functionId ≠ ARM_FID_FFA_MSG_SEND_DIRECT_RESP_AARCH64) →
      FfaUnpackDirectMessage (FfaPackDirectMessage sxcZero m) m0 = m) := by
  obtain ⟨hf, hs, hd, hg⟩ := h
  have hh1 := (headerRoundTrip m.sourceId m.destinationId hs hd).1
  have hh2 := (headerRoundTrip m.sourceId m.destinationId hs hd).2
  constructor
  · intro hfid
    rcases hfid with hfid | hfid <;>
      simp [FfaPackDirectMessage, FfaUnpackDirectMessage, hfid, hh1, hh2,
        ARM_FID_FFA_MSG_SEND_DIRECT_REQ_AARCH32, ARM_FID_FFA_MSG_SEND_DIRECT_REQ_AARCH64]
  · rintro ⟨hn1, hn2, hn3, hn4⟩
    have hguid : FfaPrepareGuid (guidOfWords (guidWordLo (FfaPrepareGuid m.serviceGuid))
        (guidWordHi (FfaPrepareGuid m.serviceGuid))) = m.serviceGuid := by
      rw [guidOfWords_guidWords _ (FfaPrepareGuid_wf _ hg)]
      exact (FfaPrepareGuid_involution _ hg).1
    have hmod : m.functionId % 4294967296 = m.functionId := Nat.mod_eq_of_lt hf
    simp [FfaPackDirectMessage, FfaUnpackDirectMessage, hn1, hn2, hn3, hn4, hmod,
      hh1, hh2, hguid]

/-- A basic 32-bit direct response message with payload word 0 set to 1. -/
def c1RespMsg : DIRECT_MSG_ARGS_EX :=
  ⟨ARM_FID_FFA_MSG_SEND_DIRECT_RESP_AARCH32, 1, 2, guidZero,
   1, 0, 0, 0, 0, 0, 0, 0, 0, 0, 0, 0, 0, 0⟩

/-- C1 counterexample: for the basic 32-bit direct-response function id the
codec's round trip is not the identity: the packer lays the message out as a
basic message but the unpacker decodes that id as an extended message. -/
theorem FfaDirectMessage_roundTrip_fails_for_resp32 :
    FfaUnpackDirectMessage (FfaPackDirectMessage sxcZero c1RespMsg) c1RespMsg ≠ c1RespMsg := by
  decide

/-- An extended message exercising every field. -/
def c1ExtMsg : DIRECT_MSG_ARGS_EX :=
  ⟨ARM_FID_FFA_MSG_SEND_DIRECT_REQ2, 3, 4, ⟨1, 2, 3, 4, 5, 6, 7, 8, 9, 10, 11⟩,
   21, 22, 23, 24, 25, 26, 27, 28, 29, 30, 31, 32, 33, 34⟩

/-- Witness for C1's amended round-trip theorem at a concrete extended
message. -/
theorem FfaDirectMessage_roundTrip_witness :
    c1ExtMsg.Wf ∧
    FfaUnpackDirectMessage (FfaPackDirectMessage sxcZero c1ExtMsg) dmZero = c1ExtMsg := by
  refine ⟨by decide, ?_⟩
  exact (FfaDirectMessage_roundTrip c1ExtMsg dmZero (by decide)).2 (by decide)

/-! The call engine: one register-vector exchange plus the interrupt-reentry
loop shared by FfaMessageWait, FfaMessageSendDirectReq2 and the direct
response senders.  The remote side is modelled as the list of register
vectors it returns to the successive exchanges of one call. -/

/-- Modelled from the spec: FfaStatusToEfiStatus lives in ArmFfaLib, part of
this repository but absent from the provided sources.  Per section 7 each
defined wire status is translated to one error kind and unknown codes map to
a device error; no claim depends on the individual images. -/
def FfaStatusToEfiStatus (code : Nat) : Nat :=
  if code = ARM_FFA_RET_SUCCESS then EFI_SUCCESS
  else if code = ARM_FFA_RET_NOT_SUPPORTED then EFI_UNSUPPORTED
  else if code = ARM_FFA_RET_INVALID_PARAMETERS then EFI_INVALID_PARAMETER
  else if code = ARM_FFA_RET_NO_MEMORY then EFI_OUT_OF_RESOURCES
  else if code = ARM_FFA_RET_BUSY then EFI_NOT_READY
  else if code = ARM_FFA_RET_INTERRUPTED then EFI_NOT_READY
  else if code = ARM_FFA_RET_DENIED then EFI_ACCESS_DENIED
  else if code = ARM_FFA_RET_RETRY then EFI_NOT_READY
  else if code = ARM_FFA_RET_ABORTED then EFI_ABORTED
  else if code = ARM_FFA_RET_NODATA then EFI_NOT_FOUND
  else if code = ARM_FFA_RET_NOT_READY then EFI_NOT_READY
  else EFI_DEVICE_ERROR

/-- The zero-payload resume/wait request FfaReturnFromInterrupt issues: a
zeroed vector whose word 0 is the FFA_MSG_WAIT function id. -/
def ffaWaitRequest : ARM_SXC_ARGS := { sxcZero with arg0 := ARM_FID_FFA_WAIT }

/-- The while loop shared by the blocking calls: while the response carries
the interrupt function id, pass the interrupt id in word 2 (truncated to
UINT32) to SecurePartitionInterruptHandler and issue the resume/wait
exchange (FfaReturnFromInterrupt), whose response comes from `pending`.
Returns the interrupt ids handed to the handler, the resume/wait requests
issued, and the first non-interrupt response; `none` when `pending` runs out
while still interrupted (the loop would still be blocked). -/
def ffaInterruptLoop : List ARM_SXC_ARGS → ARM_SXC_ARGS →
    Option (List Nat × List ARM_SXC_ARGS × ARM_SXC_ARGS)
  | pending, r =>
    if r.arg0 = ARM_FID_FFA_INTERRUPT then
      match pending with
      | [] => none
      | r2 :: rest =>
        match ffaInterruptLoop rest r2 with
        | none => none
        | some (ids, reqs, fin) =>
          some (r.arg2 % 4294967296 :: ids, ffaWaitRequest :: reqs, fin)
    else some ([], [], r)

/-- Feed the first exchange's response into the interrupt loop; the remaining
responses answer the successive resume/wait exchanges. -/
def ffaDrainResponses (responses : List ARM_SXC_ARGS) :
    Option (List Nat × List ARM_SXC_ARGS × ARM_SXC_ARGS) :=
  match responses with
  | [] => none
  | r :: rest => ffaInterruptLoop rest r

/-- The header FfaMessageSendDirectReq2 writes into the caller's message
before packing: REQ2 function id, cached own id as source, requested
destination, and the service GUID (zeroed when absent). -/
def ffaReq2Header (gPartId destPartId : Nat) (serviceGuid : Option EFI_GUID)
    (impDefArgs : DIRECT_MSG_ARGS_EX) : DIRECT_MSG_ARGS_EX :=
  { impDefArgs with
    functionId := ARM_FID_FFA_MSG_SEND_DIRECT_REQ2,
    sourceId := gPartId,
    destinationId := destPartId,
    serviceGuid := serviceGuid.getD guidZero }

/-- Post-loop processing of FfaMessageSendDirectReq2: translate an error,
unpack a RESP2 into the caller's structure, otherwise reset the structure to
just the returned function id. -/
def ffaReq2Finish (hdr : DIRECT_MSG_ARGS_EX) (fin : ARM_SXC_ARGS) :
    Nat × DIRECT_MSG_ARGS_EX :=
  if fin.arg0 = ARM_FID_FFA_ERROR then
    (FfaStatusToEfiStatus fin.arg2, hdr)
  else if fin.arg0 = ARM_FID_FFA_MSG_SEND_DIRECT_RESP2 then
    (EFI_SUCCESS, FfaUnpackDirectMessage fin hdr)
  else
    (EFI_SUCCESS, { dmZero with functionId := fin.arg0 % 4294967296 })

/-- FfaMessageSendDirectReq2 from ArmFfaLibEx.c, as a function of the
responses the remote side returns to its successive exchanges.  The result
carries the returned status, the final content of the caller's structure,
the interrupt ids passed to the handler and the resume/wait requests issued. -/
def FfaMessageSendDirectReq2 (gPartId destPartId : Nat)
    (serviceGuid : Option EFI_GUID) (impDefArgs : DIRECT_MSG_ARGS_EX)
    (responses : List ARM_SXC_ARGS) :
    Option (Nat × DIRECT_MSG_ARGS_EX × List Nat × List ARM_SXC_ARGS) :=
  match ffaDrainResponses responses with
  | none => none
  | some (ids, reqs, fin) =>
    let hdr := ffaReq2Header gPartId destPartId serviceGuid impDefArgs
    let out := ffaReq2Finish hdr fin
    some (out.1, out.2, ids, reqs)

/-- Post-loop processing of FfaMessageWait: translate an error, unpack any
direct-request id (32-bit, 64-bit or REQ2) into the caller's structure,
otherwise reset the structure to just the returned function id.  On the
error path the OUT structure keeps its prior content `msg`. -/
def ffaWaitFinish (msg : DIRECT_MSG_ARGS_EX) (fin : ARM_SXC_ARGS) :
    Nat × DIRECT_MSG_ARGS_EX :=
  if fin.arg0 = ARM_FID_FFA_ERROR then
    (FfaStatusToEfiStatus fin.arg2, msg)
  else if fin.arg0 = ARM_FID_FFA_MSG_SEND_DIRECT_REQ_AARCH32 ∨
          fin.arg0 = ARM_FID_FFA_MSG_SEND_DIRECT_REQ_AARCH64 ∨
          fin.arg0 = ARM_FID_FFA_MSG_SEND_DIRECT_REQ2 then
    (EFI_SUCCESS, FfaUnpackDirectMessage fin msg)
  else
    (EFI_SUCCESS, { dmZero with functionId := fin.arg0 % 4294967296 })

/-- FfaMessageWait from ArmFfaLibEx.c, as a function of the responses the
remote side returns; the first response answers the initial FFA_MSG_WAIT
exchange. -/
def FfaMessageWait (msg : DIRECT_MSG_ARGS_EX) (responses : List ARM_SXC_ARGS) :
    Option (Nat × DIRECT_MSG_ARGS_EX × List Nat × List ARM_SXC_ARGS) :=
  match ffaDrainResponses responses with
  | none => none
  | some (ids, reqs, fin) =>
    let out := ffaWaitFinish msg fin
    some (out.1, out.2, ids, reqs)

/-- A non-interrupt response exits the loop immediately. -/
theorem ffaInterruptLoop_exit (pending : List ARM_SXC_ARGS) (r : ARM_SXC_ARGS)
    (hr : r.arg0 ≠ ARM_FID_FFA_INTERRUPT) :
    ffaInterruptLoop pending r = some ([], [], r) := by
  unfold ffaInterruptLoop
  simp [hr]

/-- Running the loop on a current interrupt response followed by further
interrupt responses and one final non-interrupt response hands the handler
each interrupt id in order and stops on the final response. -/
theorem ffaInterruptLoop_spec (pre : List ARM_SXC_ARGS) (fin : ARM_SXC_ARGS)
    (hpre : ∀ x ∈ pre, x.arg0 = ARM_FID_FFA_INTERRUPT)
    (hfin : fin.arg0 ≠ ARM_FID_FFA_INTERRUPT)
    (r : ARM_SXC_ARGS) (hr : r.arg0 = ARM_FID_FFA_INTERRUPT) :
    ffaInterruptLoop (pre ++ [fin]) r =
      some (r.arg2 % 4294967296 :: pre.map (fun x => x.arg2 % 4294967296),
            ffaWaitRequest :: List.replicate pre.length ffaWaitRequest, fin) := by
  induction pre generalizing r with
  | nil =>
    unfold ffaInterruptLoop
    simp [hr, ffaInterruptLoop_exit [] fin hfin]
  | cons q pre ih =>
    have hq := hpre q (by simp)
    have hrec := ih (fun x hx => hpre x (by simp [hx])) q hq
    unfold ffaInterruptLoop
    simp [hr, List.cons_append, hrec, List.replicate_succ]

/-- The interrupt loop consumes exactly the leading interrupt responses:
it hands the handler their word-2 interrupt ids in order, issues one
resume/wait request per interrupt, and ends on the first non-interrupt
response. -/
theorem ffaDrainResponses_spec (pre : List ARM_SXC_ARGS) (fin : ARM_SXC_ARGS)
    (hpre : ∀ r ∈ pre, r.arg0 = ARM_FID_FFA_INTERRUPT)
    (hfin : fin.arg0 ≠ ARM_FID_FFA_INTERRUPT) :
    ffaDrainResponses (pre ++ [fin]) =
      some (pre.map (fun r => r.arg2 % 4294967296),
            List.replicate pre.length ffaWaitRequest, fin) := by
  cases pre with
  | nil =>
    simp [ffaDrainResponses, ffaInterruptLoop_exit [] fin hfin]
  | cons p pre =>
    have hp := hpre p (by simp)
    simp [ffaDrainResponses, List.cons_append, List.replicate_succ,
      ffaInterruptLoop_spec pre fin (fun x hx => hpre x (by simp [hx])) hfin p hp]

/-- C3: when the remote side answers with k interrupt responses before a
non-interrupt one, FfaMessageSendDirectReq2 and FfaMessageWait invoke the
interrupt handler exactly k times, each time with the interrupt id carried in
word 2 of that interrupt response (truncated to UINT32), issue one
zero-payload resume/wait exchange per invocation, and produce exactly the
status and message that post-processing of the final non-interrupt response
yields; in particular a RESP2 final response is decoded by the codec. -/
theorem ffaInterruptReentry (gPartId destPartId : Nat)
    (serviceGuid : Option EFI_GUID) (m : DIRECT_MSG_ARGS_EX)
    (pre : List ARM_SXC_ARGS) (fin : ARM_SXC_ARGS)
    (hpre : ∀ r ∈ pre, r.arg0 = ARM_FID_FFA_INTERRUPT)
    (hfin : fin.arg0 ≠ ARM_FID_FFA_INTERRUPT) :
    FfaMessageSendDirectReq2 gPartId destPartId serviceGuid m (pre ++ [fin]) =
      some ((ffaReq2Finish (ffaReq2Header gPartId destPartId serviceGuid m) fin).1,
            (ffaReq2Finish (ffaReq2Header gPartId destPartId serviceGuid m) fin).2,
            pre.map (fun r => r.arg2 % 4294967296),
            List.replicate pre.length ffaWaitRequest) ∧
    (fin.arg0 = ARM_FID_FFA_MSG_SEND_DIRECT_RESP2 →
      ffaReq2Finish (ffaReq2Header gPartId destPartId serviceGuid m) fin =
        (EFI_SUCCESS,
         FfaUnpackDirectMessage fin (ffaReq2Header gPartId destPartId serviceGuid m))) ∧
    FfaMessageWait m (pre ++ [fin]) =
      some ((ffaWaitFinish m fin).1, (ffaWaitFinish m fin).2,
            pre.map (fun r => r.arg2 % 4294967296),
            List.replicate pre.length ffaWaitRequest) := by
  refine ⟨?_, fun hresp => ?_, ?_⟩
  · simp [FfaMessageSendDirectReq2, ffaDrainResponses_spec pre fin hpre hfin]
  · simp [ffaReq2Finish, hresp, ARM_FID_FFA_MSG_SEND_DIRECT_RESP2, ARM_FID_FFA_ERROR]
  · simp [FfaMessageWait, ffaDrainResponses_spec pre fin hpre hfin]

/-- An interrupt response carrying interrupt id 7. -/
def c3Intr : ARM_SXC_ARGS := { sxcZero with arg0 := ARM_FID_FFA_INTERRUPT, arg2 := 7 }

/-- A RESP2 response from endpoint 5 to endpoint 6 with payload word 0 = 42. -/
def c3Fin : ARM_SXC_ARGS :=
  { sxcZero with arg0 := ARM_FID_FFA_MSG_SEND_DIRECT_RESP2,
                 arg1 := (5 <<< 16) ||| 6, arg4 := 42 }

/-- Witness for C3: one interrupt then a RESP2 success; the handler sees
interrupt id 7 once, one resume/wait request is issued, and the decoded
response is returned. -/
theorem ffaInterruptReentry_witness :
    FfaMessageSendDirectReq2 1 2 none dmZero ([c3Intr] ++ [c3Fin]) =
      some (EFI_SUCCESS,
            ⟨ARM_FID_FFA_MSG_SEND_DIRECT_RESP2, 5, 6, guidZero,
             42, 0, 0, 0, 0, 0, 0, 0, 0, 0, 0, 0, 0, 0⟩,
            [7], [ffaWaitRequest]) :=
  ((ffaInterruptReentry 1 2 none dmZero [c3Intr] c3Fin
      (by decide) (by decide)).1).trans (by decide)

/-! Memory transaction operations donate, lend, share (ArmFfaLibEx.c).
Each selects the 64-bit wire id when a distinct buffer address is supplied
(the 32-bit id means: use the registered RX/TX buffers), performs one
exchange, and decodes a 64-bit handle from response words 2 (low) and 3
(high).  The result is (request vector issued, returned status, handle
written through the Handle output). -/

def FfaMemDonate (totalLength fragmentLength bufferAddr pageCount : Nat)
    (resp : ARM_SXC_ARGS) : ARM_SXC_ARGS × Nat × Nat :=
  let req := { sxcZero with
    arg0 := if bufferAddr ≠ 0 then ARM_FID_FFA_MEM_DONATE_AARCH64
            else ARM_FID_FFA_MEM_DONATE_AARCH32,
    arg1 := totalLength, arg2 := fragmentLength, arg3 := bufferAddr,
    arg4 := pageCount }
  if resp.arg0 = ARM_FID_FFA_ERROR then
    (req, FfaStatusToEfiStatus resp.arg2, 0)
  else
    (req, EFI_SUCCESS, ((resp.arg3 <<< 32) % 18446744073709551616) ||| resp.arg2)

def FfaMemLend (totalLength fragmentLength bufferAddr pageCount : Nat)
    (resp : ARM_SXC_ARGS) : ARM_SXC_ARGS × Nat × Nat :=
  let req := { sxcZero with
    arg0 := if bufferAddr ≠ 0 then ARM_FID_FFA_MEM_LEND_AARCH64
            else ARM_FID_FFA_MEM_LEND_AARCH32,
    arg1 := totalLength, arg2 := fragmentLength, arg3 := bufferAddr,
    arg4 := pageCount }
  if resp.arg0 = ARM_FID_FFA_ERROR then
    (req, FfaStatusToEfiStatus resp.arg2, 0)
  else
    (req, EFI_SUCCESS, ((resp.arg3 <<< 32) % 18446744073709551616) ||| resp.arg2)

def FfaMemShare (totalLength fragmentLength bufferAddr pageCount : Nat)
    (resp : ARM_SXC_ARGS) : ARM_SXC_ARGS × Nat × Nat :=
  let req := { sxcZero with
    arg0 := if bufferAddr ≠ 0 then ARM_FID_FFA_MEM_SHARE_AARCH64
            else ARM_FID_FFA_MEM_SHARE_AARCH32,
    arg1 := totalLength, arg2 := fragmentLength, arg3 := bufferAddr,
    arg4 := pageCount }
  if resp.arg0 = ARM_FID_FFA_ERROR then
    (req, FfaStatusToEfiStatus resp.arg2, 0)
  else
    (req, EFI_SUCCESS, ((resp.arg3 <<< 32) % 18446744073709551616) ||| resp.arg2)

/-- C6: for donate, lend and share alike, an error response zeroes the handle
output and returns the translated status; any other response returns success
with the handle decoded as (word 3 shifted left 32, modulo 2^64) or-ed with
word 2. -/
theorem ffaMemTransactionHandle (tl fl ba pc : Nat) (r : ARM_SXC_ARGS) :
    (r.arg0 = ARM_FID_FFA_ERROR →
      (FfaMemDonate tl fl ba pc r).2 = (FfaStatusToEfiStatus r.arg2, 0) ∧
      (FfaMemLend tl fl ba pc r).2 = (FfaStatusToEfiStatus r.arg2, 0) ∧
      (FfaMemShare tl fl ba pc r).2 = (FfaStatusToEfiStatus r.arg2, 0)) ∧
    (r.arg0 ≠ ARM_FID_FFA_ERROR →
      (FfaMemDonate tl fl ba pc r).2 =
        (EFI_SUCCESS, ((r.arg3 <<< 32) % 18446744073709551616) ||| r.arg2) ∧
      (FfaMemLend tl fl ba pc r).2 =
        (EFI_SUCCESS, ((r.arg3 <<< 32) % 18446744073709551616) ||| r.arg2) ∧
      (FfaMemShare tl fl ba pc r).2 =
        (EFI_SUCCESS, ((r.arg3 <<< 32) % 18446744073709551616) ||| r.arg2)) := by
  constructor
  · intro h
    refine ⟨?_, ?_, ?_⟩ <;> simp [FfaMemDonate, FfaMemLend, FfaMemShare, h]
  · intro h
    refine ⟨?_, ?_, ?_⟩ <;> simp [FfaMemDonate, FfaMemLend, FfaMemShare, h]

/-- A non-error response with handle words 0x22222222 (low) and 0x11 (high). -/
def c6Resp : ARM_SXC_ARGS :=
  { sxcZero with arg0 := ARM_FID_FFA_SUCCESS_AARCH32,
                 arg2 := 0x22222222, arg3 := 0x11 }

/-- Witness for C6 at a concrete successful response. -/
theorem ffaMemTransactionHandle_witness :
    (FfaMemDonate 4096 4096 0 1 c6Resp).2 = (EFI_SUCCESS, 0x1122222222) ∧
    (FfaMemLend 4096 4096 0 1 c6Resp).2 = (EFI_SUCCESS, 0x1122222222) ∧
    (FfaMemShare 4096 4096 0 1 c6Resp).2 = (EFI_SUCCESS, 0x1122222222) := by
  have h := (ffaMemTransactionHandle 4096 4096 0 1 c6Resp).2 (by decide)
  exact ⟨h.1.trans (by decide), h.2.1.trans (by decide), h.2.2.trans (by decide)⟩

/-! Discovery: FfaPartitionInfoGetRegs (ArmFfaLibEx.c).  The response packs
partition descriptors as raw bytes starting at word 3; each descriptor is
24 bytes: partition id (UINT16), execution-context count or proxy id
(UINT16), property flags (UINT32) and a 16-byte UUID. -/

structure EFI_FFA_PART_INFO_DESC where
  partitionId : Nat
  execCtxCountOrProxyId : Nat
  partitionProps : Nat
  partitionUuid : List Nat
deriving DecidableEq

/-- Word `i` of the register vector. -/
def sxcWord (r : ARM_SXC_ARGS) : Nat → Nat
  | 0 => r.arg0
  | 1 => r.arg1
  | 2 => r.arg2
  | 3 => r.arg3
  | 4 => r.arg4
  | 5 => r.arg5
  | 6 => r.arg6
  | 7 => r.arg7
  | 8 => r.arg8
  | 9 => r.arg9
  | 10 => r.arg10
  | 11 => r.arg11
  | 12 => r.arg12
  | 13 => r.arg13
  | 14 => r.arg14
  | 15 => r.arg15
  | 16 => r.arg16
  | 17 => r.arg17
  | _ + 18 => 0

/-- Byte `i` of the little-endian byte view of the vector starting at the
address of word 3 (the C code's `(UINTN)(&Result.Arg3) + Index * 24`). -/
def sxcByteFromArg3 (r : ARM_SXC_ARGS) (i : Nat) : Nat :=
  sxcWord r (3 + i / 8) / 256 ^ (i % 8) % 256

/-- The descriptor CopyMem reads at index `k` of the response. -/
def ffaPartInfoDescAt (r : ARM_SXC_ARGS) (k : Nat) : EFI_FFA_PART_INFO_DESC where
  partitionId := sxcByteFromArg3 r (24 * k) + sxcByteFromArg3 r (24 * k + 1) * 256
  execCtxCountOrProxyId :=
    sxcByteFromArg3 r (24 * k + 2) + sxcByteFromArg3 r (24 * k + 3) * 256
  partitionProps :=
    bytesToWord32 (sxcByteFromArg3 r (24 * k + 4)) (sxcByteFromArg3 r (24 * k + 5))
      (sxcByteFromArg3 r (24 * k + 6)) (sxcByteFromArg3 r (24 * k + 7))
  partitionUuid := (List.range 16).map (fun i => sxcByteFromArg3 r (24 * k + 8 + i))

/-- FfaPrepareGuid acting on a 16-byte buffer through the EFI_GUID cast the
C code performs on `PartDesc->PartitionUuid`. -/
def ffaPrepareGuidOnBytes (b : List Nat) : List Nat :=
  guidBytes (FfaPrepareGuid (guidOfBytes b))

/-- One loop iteration's GUID fix-up: the C statement applies FfaPrepareGuid
to `PartDesc->PartitionUuid`, i.e. always to descriptor 0 of the output
array, not to descriptor `Index`. -/
def fixupHeadUuid (ds : List EFI_FFA_PART_INFO_DESC) : List EFI_FFA_PART_INFO_DESC :=
  match ds with
  | [] => []
  | d :: t => { d with partitionUuid := ffaPrepareGuidOnBytes d.partitionUuid } :: t

/-- The descriptor copy loop: iteration `n` copies descriptor `n` into the
output array and then runs the head fix-up. -/
def ffaPartInfoWriteLoop (r : ARM_SXC_ARGS) : Nat → List EFI_FFA_PART_INFO_DESC
  | 0 => []
  | n + 1 => fixupHeadUuid (ffaPartInfoWriteLoop r n ++ [ffaPartInfoDescAt r n])

theorem fixupHeadUuid_length (ds : List EFI_FFA_PART_INFO_DESC) :
    (fixupHeadUuid ds).length = ds.length := by
  cases ds <;> simp [fixupHeadUuid]

theorem ffaPartInfoWriteLoop_length (r : ARM_SXC_ARGS) (n : Nat) :
    (ffaPartInfoWriteLoop r n).length = n := by
  induction n with
  | zero => rfl
  | succ n ih => simp [ffaPartInfoWriteLoop, fixupHeadUuid_length, ih]

/-- The descriptor count the code derives from the metadata word: bits 16-31
of response word 2 are the last index reached; the count is that index minus
the start index plus one, in 32-bit arithmetic. -/
def partInfoCount (r : ARM_SXC_ARGS) (startIndex : Nat) : Nat :=
  (((r.arg2 >>> 16) % 65536) + 4294967296 + 1 - startIndex) % 4294967296

/-- FfaPartitionInfoGetRegs from ArmFfaLibEx.c as a function of the response.
Output: (request vector issued, returned status, final *PartDescCount,
descriptors written through PartDesc (`none` when the code returns before the
copy loop), final *Tag).  `partDescNull` models passing PartDesc == NULL. -/
def FfaPartitionInfoGetRegs (serviceGuid : Option EFI_GUID) (startIndex : Nat)
    (tag : Option Nat) (partDescCount : Nat) (partDescNull : Bool)
    (resp : ARM_SXC_ARGS) :
    ARM_SXC_ARGS × Nat × Nat × Option (List EFI_FFA_PART_INFO_DESC) × Option Nat :=
  let mangled := FfaPrepareGuid (serviceGuid.getD guidZero)
  let req := { sxcZero with
    arg0 := ARM_FID_FFA_PARTITION_INFO_GET_REGS,
    arg1 := guidWordLo mangled, arg2 := guidWordHi mangled,
    arg3 := ((tag.getD 0) <<< 16) ||| startIndex }
  if partDescNull then
    (req, EFI_INVALID_PARAMETER, partDescCount, none, tag)
  else if resp.arg0 = ARM_FID_FFA_ERROR then
    (req, FfaStatusToEfiStatus resp.arg2, partDescCount, none, tag)
  else if partDescCount < partInfoCount resp startIndex then
    (req, EFI_BUFFER_TOO_SMALL, partInfoCount resp startIndex, none, tag)
  else
    (req, EFI_SUCCESS, partInfoCount resp startIndex,
     some (ffaPartInfoWriteLoop resp (partInfoCount resp startIndex)),
     tag.map (fun _ => (resp.arg2 >>> 32) % 65536))

/-- C7: on a successful exchange the required count is last-index-reached
minus start-index plus one, read from the metadata word; a smaller caller
capacity yields EFI_BUFFER_TOO_SMALL with the required count reported and no
descriptors written, while sufficient capacity yields success, the count, and
exactly that many descriptors. -/
theorem ffaPartitionInfoCapacity (sg : Option EFI_GUID) (startIndex : Nat)
    (tag : Option Nat) (cap : Nat) (r : ARM_SXC_ARGS)
    (hr : r.arg0 ≠ ARM_FID_FFA_ERROR) :
    (cap < partInfoCount r startIndex →
      (FfaPartitionInfoGetRegs sg startIndex tag cap false r).2 =
        (EFI_BUFFER_TOO_SMALL, partInfoCount r startIndex, none, tag)) ∧
    (partInfoCount r startIndex ≤ cap →
      (FfaPartitionInfoGetRegs sg startIndex tag cap false r).2 =
        (EFI_SUCCESS, partInfoCount r startIndex,
         some (ffaPartInfoWriteLoop r (partInfoCount r startIndex)),
         tag.map (fun _ => (r.arg2 >>> 32) % 65536)) ∧
      (ffaPartInfoWriteLoop r (partInfoCount r startIndex)).length =
        partInfoCount r startIndex) := by
  constructor
  · intro hcap
    simp [FfaPartitionInfoGetRegs, hr, hcap]
  · intro hcap
    have hnot : ¬ cap < partInfoCount r startIndex := by omega
    exact ⟨by simp [FfaPartitionInfoGetRegs, hr, hnot], ffaPartInfoWriteLoop_length r _⟩

/-- A successful discovery response whose metadata word reports last index 1
from start index 0 (two descriptors); descriptor 0 carries UUID byte 8 = 2
and descriptor 1 carries UUID byte 8 = 1 on the wire. -/
def c4Resp : ARM_SXC_ARGS :=
  { sxcZero with arg0 := ARM_FID_FFA_SUCCESS_AARCH32, arg2 := 0x10000,
                 arg5 := 2, arg8 := 1 }

/-- Witness for C7: with capacity 0 the call reports EFI_BUFFER_TOO_SMALL and
required count 2; with capacity 2 it succeeds. -/
theorem ffaPartitionInfoCapacity_witness :
    (FfaPartitionInfoGetRegs none 0 none 0 false c4Resp).2 =
      (EFI_BUFFER_TOO_SMALL, 2, none, none) ∧
    (FfaPartitionInfoGetRegs none 0 none 2 false c4Resp).2.1 = EFI_SUCCESS := by
  constructor
  · exact ((ffaPartitionInfoCapacity none 0 none 0 c4Resp (by decide)).1
      (by decide)).trans (by decide)
  · have h := ((ffaPartitionInfoCapacity none 0 none 2 c4Resp (by decide)).2
      (by decide)).1
    rw [h]

/-- C4 evaluation at the failing input: with two descriptors the function
returns both UUIDs exactly as they arrived on the wire - descriptor 0's UUID
is canonicalized twice (returning it to wire form) and descriptor 1's UUID is
never touched - although de-canonicalizing either UUID would have changed it.
The loop applies FfaPrepareGuid to `PartDesc->PartitionUuid`, which is
descriptor 0, instead of descriptor `Index`. -/
theorem ffaPartitionInfoGetRegs_uuid_bug :
    (FfaPartitionInfoGetRegs none 0 none 2 false c4Resp).2 =
      (EFI_SUCCESS, 2,
       some [⟨0, 0, 0, [0, 0, 0, 0, 0, 0, 0, 0, 2, 0, 0, 0, 0, 0, 0, 0]⟩,
             ⟨0, 0, 0, [0, 0, 0, 0, 0, 0, 0, 0, 1, 0, 0, 0, 0, 0, 0, 0]⟩],
       none) ∧
    ffaPrepareGuidOnBytes [0, 0, 0, 0, 0, 0, 0, 0, 2, 0, 0, 0, 0, 0, 0, 0] ≠
      [0, 0, 0, 0, 0, 0, 0, 0, 2, 0, 0, 0, 0, 0, 0, 0] ∧
    ffaPrepareGuidOnBytes [0, 0, 0, 0, 0, 0, 0, 0, 1, 0, 0, 0, 0, 0, 0, 0] ≠
      [0, 0, 0, 0, 0, 0, 0, 0, 1, 0, 0, 0, 0, 0, 0, 0] := by
  refine ⟨by decide, by decide, by decide⟩

/-! The TPM client's conduit and status translators (Tpm2DeviceLibFfa). -/

/-- FFA_CONDUIT_ARGS: the eight words the TPM client exchanges. -/
structure FFA_CONDUIT_ARGS where
  arg0 : Nat
  arg1 : Nat
  arg2 : Nat
  arg3 : Nat
  arg4 : Nat
  arg5 : Nat
  arg6 : Nat
  arg7 : Nat
deriving DecidableEq

/-- TranslateFfaReturnStatus from Tpm2DeviceLibFfa.c: the base protocol's
status codebook. -/
def TranslateFfaReturnStatus (c : Nat) : Nat :=
  if c = ARM_FFA_RET_SUCCESS then EFI_SUCCESS
  else if c = ARM_FFA_RET_NOT_SUPPORTED then EFI_UNSUPPORTED
  else if c = ARM_FFA_RET_INVALID_PARAMETERS then EFI_INVALID_PARAMETER
  else if c = ARM_FFA_RET_NO_MEMORY then EFI_BUFFER_TOO_SMALL
  else if c = ARM_FFA_RET_BUSY then EFI_WRITE_PROTECTED
  else if c = ARM_FFA_RET_INTERRUPTED then EFI_MEDIA_CHANGED
  else if c = ARM_FFA_RET_DENIED then EFI_ACCESS_DENIED
  else if c = ARM_FFA_RET_RETRY then EFI_LOAD_ERROR
  else if c = ARM_FFA_RET_ABORTED then EFI_ABORTED
  else if c = ARM_FFA_RET_NODATA then EFI_NOT_FOUND
  else if c = ARM_FFA_RET_NOT_READY then EFI_NOT_READY
  else EFI_DEVICE_ERROR

/-- TranslateTpmReturnStatus from Tpm2ServiceFfaRaw.c: the TPM service's own
status codebook. -/
def TranslateTpmReturnStatus (c : Nat) : Nat :=
  if c = TPM2_FFA_SUCCESS_OK then EFI_SUCCESS
  else if c = TPM2_FFA_SUCCESS_OK_RESULTS_RETURNED then EFI_SUCCESS
  else if c = TPM2_FFA_ERROR_NOFUNC then EFI_NOT_FOUND
  else if c = TPM2_FFA_ERROR_NOTSUP then EFI_UNSUPPORTED
  else if c = TPM2_FFA_ERROR_INVARG then EFI_INVALID_PARAMETER
  else if c = TPM2_FFA_ERROR_INV_CRB_CTRL_DATA then EFI_COMPROMISED_DATA
  else if c = TPM2_FFA_ERROR_ALREADY then EFI_ALREADY_STARTED
  else if c = TPM2_FFA_ERROR_DENIED then EFI_ACCESS_DENIED
  else if c = TPM2_FFA_ERROR_NOMEM then EFI_OUT_OF_RESOURCES
  else EFI_DEVICE_ERROR

/-- The case labels of TranslateFfaReturnStatus. -/
def ffaDefinedStatusCodes : List Nat :=
  [ARM_FFA_RET_SUCCESS, ARM_FFA_RET_NOT_SUPPORTED, ARM_FFA_RET_INVALID_PARAMETERS,
   ARM_FFA_RET_NO_MEMORY, ARM_FFA_RET_BUSY, ARM_FFA_RET_INTERRUPTED,
   ARM_FFA_RET_DENIED, ARM_FFA_RET_RETRY, ARM_FFA_RET_ABORTED,
   ARM_FFA_RET_NODATA, ARM_FFA_RET_NOT_READY]

/-- The case labels of TranslateTpmReturnStatus. -/
def tpmDefinedStatusCodes : List Nat :=
  [TPM2_FFA_SUCCESS_OK, TPM2_FFA_SUCCESS_OK_RESULTS_RETURNED, TPM2_FFA_ERROR_NOFUNC,
   TPM2_FFA_ERROR_NOTSUP, TPM2_FFA_ERROR_INVARG, TPM2_FFA_ERROR_INV_CRB_CTRL_DATA,
   TPM2_FFA_ERROR_ALREADY, TPM2_FFA_ERROR_DENIED, TPM2_FFA_ERROR_NOMEM]

/-- C9: each translator maps every defined wire code to a kind other than the
generic device error, and every code outside its defined set to
EFI_DEVICE_ERROR; both are total functions. -/
theorem statusTranslatorsTotal :
    (∀ c ∈ ffaDefinedStatusCodes, TranslateFfaReturnStatus c ≠ EFI_DEVICE_ERROR) ∧
    (∀ c, c ∉ ffaDefinedStatusCodes → TranslateFfaReturnStatus c = EFI_DEVICE_ERROR) ∧
    (∀ c ∈ tpmDefinedStatusCodes, TranslateTpmReturnStatus c ≠ EFI_DEVICE_ERROR) ∧
    (∀ c, c ∉ tpmDefinedStatusCodes → TranslateTpmReturnStatus c = EFI_DEVICE_ERROR) := by
  refine ⟨by decide, ?_, by decide, ?_⟩
  · intro c hc
    simp only [ffaDefinedStatusCodes, List.mem_cons, List.not_mem_nil, or_false,
      not_or] at hc
    obtain ⟨h1, h2, h3, h4, h5, h6, h7, h8, h9, h10, h11⟩ := hc
    simp [TranslateFfaReturnStatus, h1, h2, h3, h4, h5, h6, h7, h8, h9, h10, h11]
  · intro c hc
    simp only [tpmDefinedStatusCodes, List.mem_cons, List.not_mem_nil, or_false,
      not_or] at hc
    obtain ⟨h1, h2, h3, h4, h5, h6, h7, h8, h9⟩ := hc
    simp [TranslateTpmReturnStatus, h1, h2, h3, h4, h5, h6, h7, h8, h9]

/-- Witness for C9 at a code outside both defined sets. -/
theorem statusTranslatorsTotal_witness :
    123 ∉ ffaDefinedStatusCodes ∧ TranslateFfaReturnStatus 123 = EFI_DEVICE_ERROR ∧
    123 ∉ tpmDefinedStatusCodes ∧ TranslateTpmReturnStatus 123 = EFI_DEVICE_ERROR :=
  ⟨by decide, statusTranslatorsTotal.2.1 123 (by decide),
   by decide, statusTranslatorsTotal.2.2.2 123 (by decide)⟩

/-- ArmCallFfaConduit from FfaConduitSmc.c / FfaConduitSvc.c: exchange the
eight words; on an error response translate word 2 and leave the caller's
structure untouched, otherwise copy the response back.  The trap's response
is the oracle `resp`. -/
def ArmCallFfaConduit (args resp : FFA_CONDUIT_ARGS) : Nat × FFA_CONDUIT_ARGS :=
  if resp.arg0 = ARM_FID_FFA_ERROR then
    (TranslateFfaReturnStatus resp.arg2, args)
  else
    (EFI_SUCCESS, resp)

/-- C10: the conduit wrapper is atomic on error: an error response returns
the translated status with the caller's argument structure unmodified; the
response registers are copied back only on the non-error path. -/
theorem armCallFfaConduitAtomic (args r : FFA_CONDUIT_ARGS) :
    (r.arg0 = ARM_FID_FFA_ERROR →
      ArmCallFfaConduit args r = (TranslateFfaReturnStatus r.arg2, args)) ∧
    (r.arg0 ≠ ARM_FID_FFA_ERROR →
      ArmCallFfaConduit args r = (EFI_SUCCESS, r)) := by
  constructor <;> intro h <;> simp [ArmCallFfaConduit, h]

/-- An error response carrying the DENIED status. -/
def c10Err : FFA_CONDUIT_ARGS := ⟨ARM_FID_FFA_ERROR, 0, ARM_FFA_RET_DENIED, 0, 0, 0, 0, 0⟩

/-- A non-error response. -/
def c10Ok : FFA_CONDUIT_ARGS := ⟨ARM_FID_FFA_SUCCESS_AARCH32, 11, 12, 13, 14, 15, 16, 17⟩

/-- A caller argument structure with distinctive content. -/
def c10Args : FFA_CONDUIT_ARGS := ⟨1, 2, 3, 4, 5, 6, 7, 8⟩

/-- Witness for C10 at concrete responses. -/
theorem armCallFfaConduitAtomic_witness :
    ArmCallFfaConduit c10Args c10Err = (TranslateFfaReturnStatus c10Err.arg2, c10Args) ∧
    ArmCallFfaConduit c10Args c10Ok = (EFI_SUCCESS, c10Ok) :=
  ⟨(armCallFfaConduitAtomic c10Args c10Err).1 (by decide),
   (armCallFfaConduitAtomic c10Args c10Ok).2 (by decide)⟩

/-- GetTpmSerivcePartitionId from Tpm2ServiceFfaRaw.c as a function of the
cached id `cache` (mFfaTpm2PartitionId) and the conduit exchange's response.
Output: (returned status, value written through PartitionId (`none` when the
code leaves it unwritten), new cache value).  The discovery enumerates
partitions implementing the TPM service GUID starting at index 0; exactly one
match manifests as current index 0 and last index 0 in response word 2. -/
def GetTpmSerivcePartitionId (tpmServiceGuid : EFI_GUID) (cache : Nat)
    (resp : FFA_CONDUIT_ARGS) : Nat × Option Nat × Nat :=
  if cache ≠ MAX_UINT32 then (EFI_SUCCESS, some cache, cache)
  else
    let mangled := FfaPrepareGuid tpmServiceGuid
    let req : FFA_CONDUIT_ARGS :=
      ⟨ARM_FID_FFA_PARTITION_INFO_GET_REGS, guidWordLo mangled, guidWordHi mangled,
       0, 0, 0, 0, 0⟩
    let c := ArmCallFfaConduit req resp
    if EFI_ERROR_BIT ≤ c.1 then (c.1, none, cache)
    else
      let lastIndex := c.2.arg2 % 65536
      let currentIndex := (c.2.arg2 >>> 16) % 65536
      if currentIndex ≠ 0 ∨ lastIndex ≠ 0 then (EFI_DEVICE_ERROR, none, cache)
      else (EFI_SUCCESS, some (c.2.arg3 % 65536), c.2.arg3 % 65536)

/-- Every FF-A result code other than SUCCESS translates to an EFI error
status (top bit set). -/
theorem translateFfaReturnStatus_error (c : Nat) (h : c ≠ ARM_FFA_RET_SUCCESS) :
    EFI_ERROR_BIT ≤ TranslateFfaReturnStatus c := by
  unfold TranslateFfaReturnStatus
  rw [if_neg h]
  split_ifs <;> decide

/-- An FF-A error response carrying the NODATA status, the way a discovery
request matching zero partitions comes back. -/
def c8RespNone : FFA_CONDUIT_ARGS := ⟨ARM_FID_FFA_ERROR, 0, ARM_FFA_RET_NODATA, 0, 0, 0, 0, 0⟩

/-- C8 counterexample: a discovery enumeration matching zero partitions
arrives as an FF-A error response with the NODATA status, and
GetTpmSerivcePartitionId returns the conduit's translated error
EFI_NOT_FOUND - not the device error the claim states - with nothing
memoized. -/
theorem tpmPartitionDiscoveryZeroMatchNotDeviceError :
    GetTpmSerivcePartitionId guidZero MAX_UINT32 c8RespNone =
      (EFI_NOT_FOUND, none, MAX_UINT32) ∧
    EFI_NOT_FOUND ≠ EFI_DEVICE_ERROR := by
  exact ⟨by decide, by decide⟩

/-- C8 (amended): with no id cached yet, a successful enumeration response
resolves and memoizes the TPM service partition id exactly when it indicates
a single match (current index 0 and last index 0); any other index pair on a
successful response yields EFI_DEVICE_ERROR with nothing memoized and
nothing written; an FF-A error response (which is how zero matches are
reported) returns the conduit's translated error - not a device error - with
nothing memoized and nothing written. -/
theorem tpmPartitionDiscoveryExactlyOne (tg : EFI_GUID) (r : FFA_CONDUIT_ARGS) :
    (r.arg0 ≠ ARM_FID_FFA_ERROR →
      ((r.arg2 >>> 16) % 65536 = 0 ∧ r.arg2 % 65536 = 0 →
        GetTpmSerivcePartitionId tg MAX_UINT32 r =
          (EFI_SUCCESS, some (r.arg3 % 65536), r.arg3 % 65536)) ∧
      (¬((r.arg2 >>> 16) % 65536 = 0 ∧ r.arg2 % 65536 = 0) →
        GetTpmSerivcePartitionId tg MAX_UINT32 r =
          (EFI_DEVICE_ERROR, none, MAX_UINT32))) ∧
    (r.arg0 = ARM_FID_FFA_ERROR → r.arg2 ≠ ARM_FFA_RET_SUCCESS →
      GetTpmSerivcePartitionId tg MAX_UINT32 r =
        (TranslateFfaReturnStatus r.arg2, none, MAX_UINT32)) := by
  constructor
  · intro hr
    constructor
    · rintro ⟨hcur, hlast⟩
      simp [GetTpmSerivcePartitionId, ArmCallFfaConduit, hr, hcur, hlast,
        EFI_ERROR_BIT, EFI_SUCCESS]
    · intro hne
      have hor : (r.arg2 >>> 16) % 65536 ≠ 0 ∨ r.arg2 % 65536 ≠ 0 := by tauto
      simp [GetTpmSerivcePartitionId, ArmCallFfaConduit, hr,
        EFI_ERROR_BIT, EFI_SUCCESS, hor]
  · intro hr hnz
    simp [GetTpmSerivcePartitionId, ArmCallFfaConduit, hr,
      translateFfaReturnStatus_error r.arg2 hnz]

/-- A successful response indicating exactly one match with partition id
0x8003. -/
def c8RespOne : FFA_CONDUIT_ARGS := ⟨ARM_FID_FFA_SUCCESS_AARCH32, 0, 0, 0x8003, 0, 0, 0, 0⟩

/-- A successful response indicating two matches (last index 1). -/
def c8RespMany : FFA_CONDUIT_ARGS := ⟨ARM_FID_FFA_SUCCESS_AARCH32, 0, 1, 7, 0, 0, 0, 0⟩

/-- Witness for C8 at concrete responses: one match, two matches, and an
FF-A error response reporting zero matches. -/
theorem tpmPartitionDiscoveryExactlyOne_witness :
    GetTpmSerivcePartitionId guidZero MAX_UINT32 c8RespOne =
      (EFI_SUCCESS, some 0x8003, 0x8003) ∧
    GetTpmSerivcePartitionId guidZero MAX_UINT32 c8RespMany =
      (EFI_DEVICE_ERROR, none, MAX_UINT32) ∧
    GetTpmSerivcePartitionId guidZero MAX_UINT32 c8RespNone =
      (TranslateFfaReturnStatus ARM_FFA_RET_NODATA, none, MAX_UINT32) :=
  ⟨(((tpmPartitionDiscoveryExactlyOne guidZero c8RespOne).1 (by decide)).1
      (by decide)).trans (by decide),
   ((tpmPartitionDiscoveryExactlyOne guidZero c8RespMany).1 (by decide)).2 (by decide),
   ((tpmPartitionDiscoveryExactlyOne guidZero c8RespNone).2 (by decide)
      (by decide)).trans (by decide)⟩
